import Mathlib

set_option linter.unusedVariables false

/-!
Verification of the mail-service repository: a shallow embedding of
`app/mailerlite.py` and `app/routers.py` (delivery client, background
delivery job, submission handler and paginated status query), with
theorems settling the specification claims.

Modelling conventions:
* Python dicts appearing as JSON-ish payloads become structures of
  `Option`-typed fields (`none` = key absent); the template-data dict is
  an association list of string pairs.
* The network is an oracle: each call of `requests.post` is represented
  by an `HttpOutcome` (normal response, timeout, connection error, or
  any other exception), chosen by the environment.  In the background
  job the oracle is a function of the arguments handed to the delivery
  client, so that what is sent is observable.
* The database table `email_logs` is a `List EmailLog`; the ORM
  `filter(id == …).first()` is a first-match lookup and the mutation
  plus `commit()` is a first-match functional update.
* Machine integers: all integers in play (HTTP status codes, ids,
  pages) are small and non-negative, so they are modelled as `Nat`.
-/

namespace MailService

/-- A `{email, name}` contact dict; either key may be absent. -/
structure Contact where
  email : Option String
  name : Option String
deriving Repr, DecidableEq

/-- The positional/keyword arguments of `mailerlite.send_email`
(`timeout` is omitted: it only parameterizes the network call, which the
`HttpOutcome` oracle already abstracts). -/
structure SendArgs where
  from_email : String
  from_name : String
  to_email : String
  to_name : String
  subject : String
  html_content : String
  text_content : Option String
deriving Repr, DecidableEq

/-- Outcome of the single `requests.post` call inside `send_email`:
either a response arrived (with status code and body text), or the
request raised `requests.exceptions.Timeout`,
`requests.exceptions.ConnectionError`, or some other exception.  The
`msg` arguments carry the Python exception description `str(e)`. -/
inductive HttpOutcome where
  | ok (status_code : Nat) (text : String)
  | timeout (msg : String)
  | connectionError (msg : String)
  | otherError (msg : String)
deriving Repr, DecidableEq

/-- `mailerlite.send_email`: returns the response's `(status_code, text)`
verbatim on a normal response, and normalizes each exception class to a
synthetic pair.  Totality of this function is the embedding of the
source's `try/except` structure in which no exception escapes. -/
def send_email (args : SendArgs) (outcome : HttpOutcome) : Nat × String :=
  match outcome with
  | .ok status_code text => (status_code, text)
  | .timeout _ => (408, "Request timeout - email service took too long to respond")
  | .connectionError _ => (503, "Connection error - could not reach email service")
  | .otherError e => (500, "Email sending failed: " ++ e)

/-- A payload dict as consumed by `send_email_dict` and
`send_email_background`.  Python key names: `from` (a Lean keyword,
rendered `fromContact`), `to` (also a Lean keyword, rendered `toList`), `subject`, `html`, `text`,
`template_data`. -/
structure PayloadDict where
  fromContact : Option Contact
  toList : Option (List Contact)
  subject : Option String
  html : Option String
  text : Option String
  template_data : Option (List (String × String))
deriving Repr, DecidableEq

/-- `mailerlite.send_email_dict`: destructures the payload dict exactly
as the source does (`payload.get("from", {})`,
`payload.get("to", [{}])[0] if payload.get("to") else {}`, …) and
delegates to `send_email`. -/
def send_email_dict (payload : PayloadDict) (outcome : HttpOutcome) : Nat × String :=
  let from_data := payload.fromContact.getD ⟨none, none⟩
  let to_data : Contact :=
    match payload.toList with
    | some (c :: _) => c
    | _ => ⟨none, none⟩
  send_email
    ⟨from_data.email.getD "", from_data.name.getD "",
     to_data.email.getD "", to_data.name.getD "",
     payload.subject.getD "", payload.html.getD "", payload.text⟩
    outcome

/-- Spec-side destructuring for the refinement claim about
`send_email_dict`: each of the from/to/subject/html fields defaults to
the empty value when its key is missing (the to-contact is the head of
the `to` list when that list is present and non-empty). -/
def dictDefaultArgs (payload : PayloadDict) : SendArgs where
  from_email := ((payload.fromContact.getD ⟨none, none⟩).email).getD ""
  from_name := ((payload.fromContact.getD ⟨none, none⟩).name).getD ""
  to_email := (((payload.toList.getD []).headD ⟨none, none⟩).email).getD ""
  to_name := (((payload.toList.getD []).headD ⟨none, none⟩).name).getD ""
  subject := payload.subject.getD ""
  html_content := payload.html.getD ""
  text_content := payload.text

/-- Claim C2: `send_email` never propagates an exception and always
returns a `(statusCode, message)` pair (totality of the embedding); a
timeout yields a synthetic 408 result, a connection failure a synthetic
503 result, and any other exception a synthetic 500 result whose
message contains the exception description. -/
theorem send_email_normalizes_failures (args : SendArgs) (m e : String) :
    send_email args (.timeout m) =
      (408, "Request timeout - email service took too long to respond") ∧
    send_email args (.connectionError m) =
      (503, "Connection error - could not reach email service") ∧
    (send_email args (.otherError e)).1 = 500 ∧
    (∃ pre, (send_email args (.otherError e)).2 = pre ++ e) ∧
    (∀ o : HttpOutcome, send_email args o =
      ((send_email args o).1, (send_email args o).2)) :=
  ⟨rfl, rfl, rfl, ⟨"Email sending failed: ", rfl⟩, fun _ => rfl⟩

/-- Claim C7: `send_email_dict` never raises (it is total) and returns
exactly the result of `send_email` on the destructured fields, where
every missing `from`/`to`/`subject`/`html` key defaults to the empty
value. -/
theorem send_email_dict_refines_send_email (payload : PayloadDict)
    (outcome : HttpOutcome) :
    send_email_dict payload outcome =
      send_email (dictDefaultArgs payload) outcome := by
  unfold send_email_dict dictDefaultArgs
  cases h : payload.toList with
  | none => rfl
  | some l => cases l <;> rfl

/-- A row of the `email_logs` table (`app/models.py`, class `EmailLog`).
`created_at` is the server-assigned creation timestamp, modelled as a
`Nat`. -/
structure EmailLog where
  id : Nat
  sender_email : String
  receiver_email : String
  subject : String
  status : String
  response : String
  created_at : Nat
deriving Repr, DecidableEq

/-- `db.query(EmailLog).filter(EmailLog.id == i).first()`: the first row
of the table whose `id` matches (at most one exists in practice, `id`
being the primary key). -/
def findLog : List EmailLog → Nat → Option EmailLog
  | [], _ => none
  | e :: rest, i => if e.id = i then some e else findLog rest i

/-- Mutating the fetched ORM object's `status` and `response` fields and
committing: the first row with the given id is replaced by its updated
copy, all other rows are untouched. -/
def updateLog : List EmailLog → Nat → String → String → List EmailLog
  | [], _, _, _ => []
  | e :: rest, i, st, resp =>
    if e.id = i then { e with status := st, response := resp } :: rest
    else e :: updateLog rest i st resp

/-- `d.get(k, dflt)` on the template-data dict, modelled as first-match
lookup in an association list. -/
def dictGet (d : List (String × String)) (k : String) (dflt : String) : String :=
  match d.find? (fun kv => kv.1 == k) with
  | some kv => kv.2
  | none => dflt

/-- `template_data = payload.get("template_data", {})` in
`send_email_background`. -/
def bgTemplateData (payload : PayloadDict) : List (String × String) :=
  payload.template_data.getD []

/-- `from_data = payload.get("from", {})` in `send_email_background`. -/
def bgFromData (payload : PayloadDict) : Contact :=
  payload.fromContact.getD ⟨none, none⟩

/-- `to_data = payload.get("to", [{}])[0] if payload.get("to") else {}`
in `send_email_background`: the first to-contact when the `to` list is
present and non-empty, the empty dict otherwise. -/
def bgToData (payload : PayloadDict) : Contact :=
  match payload.toList with
  | some (c :: _) => c
  | _ => ⟨none, none⟩

/-- The five substitution variables handed to
`template.render(...)` for `welcome.html`. -/
structure TemplateVars where
  user_name : String
  company_name : String
  login_url : String
  support_url : String
  year : String
deriving Repr, DecidableEq

/-- The keyword arguments of the `template.render(...)` call in
`send_email_background`, with the source's defaults for absent keys. -/
def backgroundTemplateVars (payload : PayloadDict) : TemplateVars where
  user_name := (bgToData payload).name.getD "User"
  company_name := dictGet (bgTemplateData payload) "company_name" "Our Company"
  login_url := dictGet (bgTemplateData payload) "login_url" "#"
  support_url := dictGet (bgTemplateData payload) "support_url" "#"
  year := dictGet (bgTemplateData payload) "year" "2026"

/-- Modelled from the spec: the file `app/templates/emails/welcome.html`
is not part of the source tree, so the Template Renderer collaborator
(`render(templateName, variables) → htmlString`, spec §4.2) is modelled
as a fixed encoding of the substitution variables into the produced HTML
string. -/
def renderWelcome (v : TemplateVars) : String :=
  "<html>welcome " ++ v.user_name ++ "|" ++ v.company_name ++ "|" ++
    v.login_url ++ "|" ++ v.support_url ++ "|" ++ v.year ++ "</html>"

/-- The arguments `send_email_background` passes to `send_email`, given
the already-rendered HTML body (`subject=payload.get("subject", "")`,
contacts via `.get(..., "")`, no `text_content`). -/
def bgSendArgs (payload : PayloadDict) (html_content : String) : SendArgs where
  from_email := (bgFromData payload).email.getD ""
  from_name := (bgFromData payload).name.getD ""
  to_email := (bgToData payload).email.getD ""
  to_name := (bgToData payload).name.getD ""
  subject := payload.subject.getD ""
  html_content := html_content
  text_content := none

/-- The delivery-client arguments of the background job's success path:
the rendered welcome template as HTML body, everything else from the
payload. -/
def bgArgs (payload : PayloadDict) : SendArgs :=
  bgSendArgs payload (renderWelcome (backgroundTemplateVars payload))

/-- Environment of one background-job run: whether the database fetch
raises (with the exception description), whether template
loading/rendering raises, and the network oracle deciding the outcome
of the delivery call as a function of the arguments sent. -/
structure JobEnv where
  fetchError : Option String
  renderError : Option String
  send : SendArgs → HttpOutcome

/-- Observable result of one `send_email_background` run: the table
after the run, the description of an exception escaping the function
(if any), and — as instrumentation — the arguments handed to the
delivery client (`none` when the job never reached the send call). -/
structure JobOutcome where
  db : List EmailLog
  raised : Option String
  sent : Option SendArgs
deriving Repr

/-- The exception escaping `send_email_background` when the fetch
raises: the `except` handler evaluates `if log:` while the local `log`
was never assigned, so Python raises `UnboundLocalError` out of the
handler (the original exception becomes its context). -/
def unboundLocalLogError : String :=
  "UnboundLocalError: cannot access local variable referenced before assignment"

/-- `routers.send_email_background(email_log_id, payload)` under
environment `env`, acting on table `db`:
fetch the row by id (abort silently when absent), render the welcome
template, call `send_email`, classify the result (`2xx → sent`,
otherwise `failed`) and store the response text; if rendering raises,
the `except` handler marks the row `failed` with the exception
description; if the fetch itself raises, the handler's `if log:` line
raises `UnboundLocalError`, which escapes. -/
def send_email_background (env : JobEnv) (db : List EmailLog)
    (email_log_id : Nat) (payload : PayloadDict) : JobOutcome :=
  match env.fetchError with
  | some _ => ⟨db, some unboundLocalLogError, none⟩
  | none =>
    match findLog db email_log_id with
    | none => ⟨db, none, none⟩
    | some _ =>
      match env.renderError with
      | some e => ⟨updateLog db email_log_id "failed" e, none, none⟩
      | none =>
        let args := bgArgs payload
        let result := send_email args (env.send args)
        let st := if 200 ≤ result.1 ∧ result.1 < 300 then "sent" else "failed"
        ⟨updateLog db email_log_id st result.2, none, some args⟩

/-- The request body of `POST /send-email` (`app/schemas.py`,
`EmailRequest`), after framework validation. -/
structure EmailRequest where
  sender_email : String
  sender_name : String
  receiver_email : String
  receiver_name : String
  subject : String
  content : String
deriving Repr, DecidableEq

/-- The payload dict built inside `routers.send_mail`: `from`, `to`,
`subject` and `html` keys only — in particular no `template_data` key
and no `text` key. -/
def buildPayload (data : EmailRequest) : PayloadDict where
  fromContact := some ⟨some data.sender_email, some data.sender_name⟩
  toList := some [⟨some data.receiver_email, some data.receiver_name⟩]
  subject := some data.subject
  html := some data.content
  text := none
  template_data := none

/-- The fresh `EmailLog(...)` row created by `routers.send_mail`, with
the id the database assigns on commit and the server-assigned
timestamp. -/
def newLogEntry (data : EmailRequest) (newId now : Nat) : EmailLog where
  id := newId
  sender_email := data.sender_email
  receiver_email := data.receiver_email
  subject := data.subject
  status := "pending"
  response := "Email queued for sending"
  created_at := now

/-- The JSON body returned by `POST /send-email`. -/
structure SendMailResponse where
  status : String
  email_id : Nat
  message : String
deriving Repr, DecidableEq

/-- Result of one `routers.send_mail` call: the table after the
synchronous commit, the HTTP response body, and the background task
scheduled via `background_tasks.add_task` (its `(log.id, payload)`
arguments). -/
structure SubmitResult where
  db : List EmailLog
  response : SendMailResponse
  task : Nat × PayloadDict
deriving Repr

/-- `routers.send_mail(data)` acting on table `db`: append the pending
log row, schedule the background task, and answer `queued`.  `newId` is
the id the database assigns to the new row and `now` its timestamp. -/
def send_mail (db : List EmailLog) (data : EmailRequest)
    (newId now : Nat) : SubmitResult where
  db := db ++ [newLogEntry data newId now]
  response := ⟨"queued", newId, "Email queued for sending in background"⟩
  task := (newId, buildPayload data)

/-- `query = db.query(EmailLog); if status: query = query.filter(...)`
in `routers.email_status` (a `None` or empty-string filter is falsy, so
no filtering happens). -/
def statusQuery (db : List EmailLog) (status : Option String) : List EmailLog :=
  match status with
  | some s => if s = "" then db else db.filter (fun e => e.status == s)
  | none => db

/-- `ORDER BY created_at DESC`: the row created later comes first. -/
def laterFirst (a b : EmailLog) : Prop :=
  b.created_at ≤ a.created_at

instance : DecidableRel laterFirst := fun a b =>
  inferInstanceAs (Decidable (b.created_at ≤ a.created_at))

instance : IsTotal EmailLog laterFirst :=
  ⟨fun a b => (Nat.le_total b.created_at a.created_at).elim Or.inl Or.inr⟩

instance : IsTrans EmailLog laterFirst :=
  ⟨fun _ _ _ hab hbc => Nat.le_trans hbc hab⟩

/-- The JSON body returned by `GET /api/status` (the `data` items expose
exactly the fields of `EmailLog`, so the rows are kept whole). -/
structure StatusResponse where
  total : Nat
  page : Nat
  per_page : Nat
  data : List EmailLog
deriving Repr

/-- `routers.email_status(page, status)` acting on table `db`: filter
by status when one is given, count the matches, and return the slice
`OFFSET (page-1)*10 LIMIT 10` of the matches ordered newest first.
`page` is modelled as a `Nat` (the route's contract is `page ≥ 1`). -/
def email_status (db : List EmailLog) (page : Nat)
    (status : Option String) : StatusResponse :=
  let query := statusQuery db status
  let per_page := 10
  let total := query.length
  let emails :=
    ((List.insertionSort laterFirst query).drop ((page - 1) * per_page)).take per_page
  ⟨total, page, per_page, emails⟩

/-! ### Helper lemmas -/

/-- Updating a row that `findLog` locates is visible to the next
`findLog` with the same id. -/
theorem findLog_updateLog (db : List EmailLog) (i : Nat) (st resp : String)
    (e : EmailLog) (h : findLog db i = some e) :
    findLog (updateLog db i st resp) i =
      some { e with status := st, response := resp } := by
  induction db with
  | nil => simp [findLog] at h
  | cons a rest ih =>
    by_cases ha : a.id = i
    · simp [findLog, ha] at h
      subst h
      simp [updateLog, findLog, ha]
    · simp only [findLog, updateLog, ha, if_false, if_neg ha] at h ⊢
      exact ih h

/-- `d.get(k, dflt)` yields the default when the key is absent. -/
theorem dictGet_of_absent (d : List (String × String)) (k dflt : String)
    (h : ∀ kv ∈ d, kv.1 ≠ k) : dictGet d k dflt = dflt := by
  unfold dictGet
  have hn : d.find? (fun kv => kv.1 == k) = none := by
    rw [List.find?_eq_none]
    intro x hx
    simp [h x hx]
  rw [hn]

/-- The background job's observable behaviour depends on the payload
only through the fields it actually reads: the from-contact, the
to-contact, the subject and the template data (in particular not
through the `html` key). -/
theorem send_email_background_congr (env : JobEnv) (db : List EmailLog)
    (i : Nat) (p q : PayloadDict)
    (h1 : bgFromData p = bgFromData q) (h2 : bgToData p = bgToData q)
    (h3 : p.subject = q.subject) (h4 : bgTemplateData p = bgTemplateData q) :
    send_email_background env db i p = send_email_background env db i q := by
  have hv : backgroundTemplateVars p = backgroundTemplateVars q := by
    simp [backgroundTemplateVars, h2, h4]
  have ha : bgArgs p = bgArgs q := by
    simp [bgArgs, bgSendArgs, h1, h2, h3, hv]
  unfold send_email_background
  cases hfe : env.fetchError with
  | some e => rfl
  | none =>
    cases hfind : findLog db i with
    | none => rfl
    | some l =>
      cases hre : env.renderError with
      | some e => rfl
      | none => simp [ha]

/-! ### Concrete sample inputs used by witnesses -/

/-- A pending log row, as created by a submission. -/
def logA : EmailLog :=
  ⟨1, "a@x.com", "b@y.com", "Hi", "pending", "Email queued for sending", 5⟩

/-- The scenario request from the spec. -/
def reqA : EmailRequest := ⟨"a@x.com", "A", "b@y.com", "B", "Hi", "<p>hi</p>"⟩

/-- The payload the submission handler builds from `reqA`. -/
def payloadA : PayloadDict := buildPayload reqA

/-- A run in which nothing raises and the delivery API answers 202. -/
def envOk : JobEnv := ⟨none, none, fun _ => .ok 202 "Accepted"⟩

/-- A run in which the database fetch raises. -/
def envFetchFail : JobEnv :=
  ⟨some "OperationalError: database is locked", none, fun _ => .ok 200 ""⟩

/-- A payload whose to-contact has no name and whose template-data dict
is absent. -/
def payloadB : PayloadDict :=
  ⟨some ⟨some "a@x.com", some "A"⟩, some [⟨some "b@y.com", none⟩],
   some "Hi", some "<p>hi</p>", none, none⟩

/-- A second, sent log row with a later timestamp, for pagination and
filtering witnesses. -/
def logB : EmailLog :=
  ⟨2, "c@x.com", "d@y.com", "Yo", "sent", "Accepted", 9⟩

/-! ### Claims -/

/-- Claim C1: in a completed background delivery attempt (fetch found
the row, rendering succeeded), the row's status becomes `sent` exactly
when the delivery call's status code lies in `[200,300)` and `failed`
otherwise, and the delivery call's response text is stored in the row's
`response` field in both cases. -/
theorem background_marks_sent_iff_2xx (env : JobEnv) (db : List EmailLog)
    (i : Nat) (payload : PayloadDict) (log : EmailLog)
    (hf : env.fetchError = none) (hr : env.renderError = none)
    (hl : findLog db i = some log) :
    ∃ e, findLog (send_email_background env db i payload).db i = some e ∧
      (e.status = "sent" ↔
        200 ≤ (send_email (bgArgs payload) (env.send (bgArgs payload))).1 ∧
          (send_email (bgArgs payload) (env.send (bgArgs payload))).1 < 300) ∧
      (e.status = "sent" ∨ e.status = "failed") ∧
      e.response = (send_email (bgArgs payload) (env.send (bgArgs payload))).2 := by
  simp only [send_email_background, hf, hr, hl]
  refine ⟨_, findLog_updateLog db i _ _ log hl, ?_, ?_, rfl⟩
  · by_cases h2xx : 200 ≤ (send_email (bgArgs payload) (env.send (bgArgs payload))).1 ∧
      (send_email (bgArgs payload) (env.send (bgArgs payload))).1 < 300
    · simp [h2xx]
    · simp only [if_neg h2xx]
      constructor
      · intro hcontra; exact absurd hcontra (by decide)
      · intro hx; exact absurd hx h2xx
  · by_cases h2xx : 200 ≤ (send_email (bgArgs payload) (env.send (bgArgs payload))).1 ∧
      (send_email (bgArgs payload) (env.send (bgArgs payload))).1 < 300
    · simp [h2xx]
    · simp [if_neg h2xx]

/-- Witness for C1 at a concrete successful 202 delivery. -/
theorem background_marks_sent_iff_2xx_witness :
    ∃ e, findLog (send_email_background envOk [logA] 1 payloadA).db 1 = some e ∧
      (e.status = "sent" ↔
        200 ≤ (send_email (bgArgs payloadA) (envOk.send (bgArgs payloadA))).1 ∧
          (send_email (bgArgs payloadA) (envOk.send (bgArgs payloadA))).1 < 300) ∧
      (e.status = "sent" ∨ e.status = "failed") ∧
      e.response = (send_email (bgArgs payloadA) (envOk.send (bgArgs payloadA))).2 :=
  background_marks_sent_iff_2xx envOk [logA] 1 payloadA logA rfl rfl rfl

/-- Claim C3 (code bug): when the fetch of the log row raises, the
`except` handler's `if log:` line references the never-assigned local
`log`, so an `UnboundLocalError` escapes `send_email_background`
instead of the error being swallowed; the table is left untouched. -/
theorem background_fetch_error_escapes :
    (send_email_background envFetchFail [logA] 1 payloadA).raised =
      some unboundLocalLogError ∧
    (send_email_background envFetchFail [logA] 1 payloadA).db = [logA] :=
  ⟨rfl, rfl⟩

/-- Claim C4: for every table and page ≥ 1, the status listing reports
the matching count as `total`, returns at most ten rows ordered
most-recently-created first, obtained by skipping exactly `(page-1)*10`
rows of a sorted arrangement of the matches; a page beyond the
available rows yields an empty `data` list (with `total` still the
matching count), not an error. -/
theorem email_status_paginates (db : List EmailLog) (page : Nat)
    (status : Option String) (hpage : 1 ≤ page) :
    (email_status db page status).total = (statusQuery db status).length ∧
    List.Sorted laterFirst (email_status db page status).data ∧
    (email_status db page status).data.length ≤ 10 ∧
    (∃ s, s.Perm (statusQuery db status) ∧ List.Sorted laterFirst s ∧
      (email_status db page status).data = (s.drop ((page - 1) * 10)).take 10) ∧
    ((statusQuery db status).length ≤ (page - 1) * 10 →
      (email_status db page status).data = []) := by
  have hdata : (email_status db page status).data =
      ((List.insertionSort laterFirst (statusQuery db status)).drop
        ((page - 1) * 10)).take 10 := rfl
  refine ⟨rfl, ?_, ?_, ?_, ?_⟩
  · rw [hdata]
    exact List.Pairwise.sublist
      ((List.take_sublist _ _).trans (List.drop_sublist _ _))
      (List.sorted_insertionSort laterFirst (statusQuery db status))
  · rw [hdata]
    exact List.length_take_le _ _
  · exact ⟨List.insertionSort laterFirst (statusQuery db status),
      List.perm_insertionSort laterFirst (statusQuery db status),
      List.sorted_insertionSort laterFirst (statusQuery db status), hdata⟩
  · intro hbeyond
    rw [hdata, List.drop_eq_nil_of_le, List.take_nil]
    rw [List.length_insertionSort]
    exact hbeyond

/-- Witness for C4: page 2 of a two-row table is empty with the right
total. -/
theorem email_status_paginates_witness :
    1 ≤ 2 ∧
    ((email_status [logA, logB] 2 none).total =
        (statusQuery [logA, logB] none).length ∧
      List.Sorted laterFirst (email_status [logA, logB] 2 none).data ∧
      (email_status [logA, logB] 2 none).data.length ≤ 10 ∧
      (∃ s, s.Perm (statusQuery [logA, logB] none) ∧
        List.Sorted laterFirst s ∧
        (email_status [logA, logB] 2 none).data =
          (s.drop ((2 - 1) * 10)).take 10) ∧
      ((statusQuery [logA, logB] none).length ≤ (2 - 1) * 10 →
        (email_status [logA, logB] 2 none).data = [])) :=
  ⟨by decide, email_status_paginates [logA, logB] 2 none (by decide)⟩

/-- Claim C5: with a status filter from `{pending, sent, failed}`, every
returned row carries exactly that status and `total` is the number of
matching rows (not the size of the whole table). -/
theorem email_status_filters (db : List EmailLog) (page : Nat) (s : String)
    (hs : s = "pending" ∨ s = "sent" ∨ s = "failed") :
    (∀ e ∈ (email_status db page (some s)).data, e.status = s) ∧
    (email_status db page (some s)).total =
      db.countP (fun e => e.status == s) := by
  have hne : ¬ s = "" := by
    rcases hs with h | h | h <;> subst h <;> decide
  have hq : statusQuery db (some s) = db.filter (fun e => e.status == s) := by
    simp [statusQuery, hne]
  have hdata : (email_status db page (some s)).data =
      ((List.insertionSort laterFirst (statusQuery db (some s))).drop
        ((page - 1) * 10)).take 10 := rfl
  constructor
  · intro e he
    rw [hdata] at he
    have h1 : e ∈ List.insertionSort laterFirst (statusQuery db (some s)) :=
      ((List.take_sublist _ _).trans (List.drop_sublist _ _)).subset he
    have h2 : e ∈ statusQuery db (some s) :=
      (List.perm_insertionSort laterFirst _).subset h1
    rw [hq] at h2
    exact eq_of_beq (List.mem_filter.mp h2).2
  · have htotal : (email_status db page (some s)).total =
        (statusQuery db (some s)).length := rfl
    rw [htotal, hq, ← List.countP_eq_length_filter]

/-- Witness for C5: filtering a mixed table by `failed`. -/
theorem email_status_filters_witness :
    ("failed" = "pending" ∨ "failed" = "sent" ∨ "failed" = "failed") ∧
    ((∀ e ∈ (email_status [logA, logB] 1 (some "failed")).data,
        e.status = "failed") ∧
      (email_status [logA, logB] 1 (some "failed")).total =
        List.countP (fun e => e.status == "failed") [logA, logB]) :=
  ⟨Or.inr (Or.inr rfl),
   email_status_filters [logA, logB] 1 "failed" (Or.inr (Or.inr rfl))⟩

/-- Claim C6: a valid submission creates exactly one log row, in status
`pending` with the placeholder response text, before the handler
returns, and the response body is `queued` with the new row's id and a
message string. -/
theorem send_mail_creates_pending_entry (db : List EmailLog)
    (data : EmailRequest) (newId now : Nat) :
    (send_mail db data newId now).db = db ++ [newLogEntry data newId now] ∧
    (newLogEntry data newId now).status = "pending" ∧
    (newLogEntry data newId now).response = "Email queued for sending" ∧
    (send_mail db data newId now).response.status = "queued" ∧
    (send_mail db data newId now).response.email_id =
      (newLogEntry data newId now).id ∧
    (send_mail db data newId now).response.message =
      "Email queued for sending in background" :=
  ⟨rfl, rfl, rfl, rfl, rfl, rfl⟩

/-- Claim C8: the welcome template is rendered with the five variables
recipient display name, company name, login URL, support URL and year;
when the to-contact has no name and the template-data map lacks the
corresponding keys, they take the defaults `User`, `Our Company`, `#`,
`#` (and `2026` for the year), and the completed job sends exactly
that rendering. -/
theorem background_renders_with_defaults (env : JobEnv) (db : List EmailLog)
    (i : Nat) (payload : PayloadDict) (log : EmailLog)
    (hf : env.fetchError = none) (hr : env.renderError = none)
    (hl : findLog db i = some log)
    (hname : (bgToData payload).name = none)
    (hc : ∀ kv ∈ bgTemplateData payload, kv.1 ≠ "company_name")
    (hlu : ∀ kv ∈ bgTemplateData payload, kv.1 ≠ "login_url")
    (hsu : ∀ kv ∈ bgTemplateData payload, kv.1 ≠ "support_url")
    (hy : ∀ kv ∈ bgTemplateData payload, kv.1 ≠ "year") :
    backgroundTemplateVars payload = ⟨"User", "Our Company", "#", "#", "2026"⟩ ∧
    (send_email_background env db i payload).sent =
      some (bgSendArgs payload
        (renderWelcome ⟨"User", "Our Company", "#", "#", "2026"⟩)) := by
  have hvars : backgroundTemplateVars payload =
      ⟨"User", "Our Company", "#", "#", "2026"⟩ := by
    unfold backgroundTemplateVars
    rw [hname, dictGet_of_absent _ _ _ hc, dictGet_of_absent _ _ _ hlu,
      dictGet_of_absent _ _ _ hsu, dictGet_of_absent _ _ _ hy]
    rfl
  refine ⟨hvars, ?_⟩
  simp only [send_email_background, hf, hr, hl]
  simp [bgArgs, hvars]

/-- Witness for C8 at a payload with empty template data and an unnamed
recipient. -/
theorem background_renders_with_defaults_witness :
    backgroundTemplateVars payloadB =
      ⟨"User", "Our Company", "#", "#", "2026"⟩ ∧
    (send_email_background envOk [logA] 1 payloadB).sent =
      some (bgSendArgs payloadB
        (renderWelcome ⟨"User", "Our Company", "#", "#", "2026"⟩)) :=
  background_renders_with_defaults envOk [logA] 1 payloadB logA rfl rfl rfl
    rfl (by decide) (by decide) (by decide) (by decide)

/-- Claim C9: two status queries with the same page and filter against
the same table state (no intervening writes) return identical results,
in particular the same total and data list. -/
theorem email_status_idempotent (db1 db2 : List EmailLog) (page : Nat)
    (status : Option String) (h : db1 = db2) :
    email_status db1 page status = email_status db2 page status ∧
    (email_status db1 page status).total =
      (email_status db2 page status).total ∧
    (email_status db1 page status).data =
      (email_status db2 page status).data := by
  subst h
  exact ⟨rfl, rfl, rfl⟩

/-- Witness for C9 at a concrete table. -/
theorem email_status_idempotent_witness :
    email_status [logA, logB] 1 (some "sent") =
      email_status [logA, logB] 1 (some "sent") ∧
    (email_status [logA, logB] 1 (some "sent")).total =
      (email_status [logA, logB] 1 (some "sent")).total ∧
    (email_status [logA, logB] 1 (some "sent")).data =
      (email_status [logA, logB] 1 (some "sent")).data :=
  email_status_idempotent [logA, logB] [logA, logB] 1 (some "sent") rfl

/-- Claim C10 (implicit): the request's `content` HTML never reaches
the delivery client — the background job's behaviour is unchanged under
any replacement of the submitted content, and whenever the job reaches
the delivery call, the HTML it sends is the rendered welcome
template. -/
theorem background_ignores_request_content (env : JobEnv)
    (db : List EmailLog) (i : Nat) (data : EmailRequest) (c : String) :
    send_email_background env db i (buildPayload data) =
      send_email_background env db i (buildPayload { data with content := c }) ∧
    ∀ args, (send_email_background env db i (buildPayload data)).sent = some args →
      args.html_content =
        renderWelcome (backgroundTemplateVars (buildPayload data)) := by
  constructor
  · exact send_email_background_congr env db i _ _ rfl rfl rfl rfl
  · intro args h
    unfold send_email_background at h
    cases hfe : env.fetchError with
    | some e => rw [hfe] at h; simp at h
    | none =>
      rw [hfe] at h
      cases hfind : findLog db i with
      | none => rw [hfind] at h; simp at h
      | some l =>
        rw [hfind] at h
        cases hre : env.renderError with
        | some e => rw [hre] at h; simp at h
        | none =>
          rw [hre] at h
          simp only [Option.some.injEq] at h
          subst h
          rfl

/-- Witness for C10: the scenario request with its content replaced. -/
theorem background_ignores_request_content_witness :
    (send_email_background envOk [logA] 1 (buildPayload reqA) =
      send_email_background envOk [logA] 1
        (buildPayload { reqA with content := "<b>other</b>" })) ∧
    (bgArgs (buildPayload reqA)).html_content =
      renderWelcome (backgroundTemplateVars (buildPayload reqA)) :=
  ⟨(background_ignores_request_content envOk [logA] 1 reqA "<b>other</b>").1,
   (background_ignores_request_content envOk [logA] 1 reqA "<b>other</b>").2
     (bgArgs (buildPayload reqA)) rfl⟩

end MailService
